import Mathlib

/-!
Verification of the psutil issue-triage bot (`.github/workflows/issues.py`).

The Python script is shallowly embedded below.  Texts are Lean `String`s
(the repository only ever handles ASCII, where Python's `str.lower` and
`Char.toLower` agree).  The remote issue handle is modelled by `IssueData`:
its mutable remote label list is a field, and every remote call the script
performs (add label, post comment, edit state) is recorded in a trace of
`Effect`s.  A Python run that raises is modelled by an `Except.error`
result paired with the effects already emitted before the raise.
Python `%`-formatting is modelled by `pyFormat1`/`pyFormat2`, including the
`TypeError` raised when the format string consumes fewer arguments than
supplied.  The `scripts` keyword extension reads `os.listdir(SCRIPTS_DIR)`
at startup; that directory listing (already filtered to `.py` names by the
list comprehension) is passed in as the `scriptFiles` parameter.
-/

/-- `containsSub sub l` is Python's `sub in l` on character lists:
`true` iff `sub` occurs contiguously inside `l`. -/
def containsSub (sub : List Char) : List Char → Bool
  | [] => sub.isEmpty
  | c :: cs => sub.isPrefixOf (c :: cs) || containsSub sub cs

/-- Python's `sub in s` for strings. -/
def strIn (sub s : String) : Bool := containsSub sub.data s.data

/-- Python's `s.lower()` (ASCII). -/
def lowerStr (s : String) : String := ⟨s.data.map Char.toLower⟩

/-- Python's `s.replace(' ', '')`. -/
def stripSpaces (s : String) : String := ⟨s.data.filter (fun c => !(c == ' '))⟩

/-- Characters of a line up to and including its first `'\n'`;
`none` when the list holds no newline (the regex `.*?\n` then fails). -/
def takeLine : List Char → Option (List Char)
  | [] => none
  | c :: cs => if c = '\n' then some [c] else (takeLine cs).map (fun l => c :: l)

/-- `re.search(re.escape marker ++ ".*?\n", text)`: leftmost occurrence of
`marker` that is followed (on the same line) by a newline; returns the whole
match, `marker` up to and including that newline. -/
def reSearchChars (marker : List Char) : List Char → Option (List Char)
  | [] => none
  | c :: cs =>
    if marker.isPrefixOf (c :: cs) then
      match takeLine ((c :: cs).drop marker.length) with
      | some line => some (marker ++ line)
      | none => reSearchChars marker cs
    else reSearchChars marker cs

/-- String wrapper for `reSearchChars`. -/
def reSearchLine (marker text : String) : Option String :=
  (reSearchChars marker.data text.data).map (fun l => ⟨l⟩)

/-- Split a `%`-format string at its first conversion specifier:
`some (pre, c, post)` when the string is `pre ++ "%" ++ [c] ++ post`
with no `'%'` in `pre`; `none` when it holds no specifier.
(The script's format strings never use the `%%` escape.) -/
def fmtSpec : List Char → Option (List Char × Char × List Char)
  | [] => none
  | '%' :: rest =>
    match rest with
    | [] => none
    | c :: rest2 => some ([], c, rest2)
  | c :: rest => (fmtSpec rest).map (fun x => (c :: x.1, x.2.1, x.2.2))

/-- Python `repr` of the strings the script interpolates with `%r`
(plain labels, no quotes or escapes inside). -/
def pyRepr (s : String) : String := "'" ++ s ++ "'"

/-- Python's `fmt % (arg,)` with a single argument: substituting into the
single `%r`/`%s` specifier, `TypeError` when the format string has no
specifier (this exact situation is reachable in the script) or more than
one. -/
def pyFormat1 (fmt arg : String) : Except String String :=
  match fmtSpec fmt.data with
  | none => Except.error "TypeError: not all arguments converted during string formatting"
  | some (pre, c, post) =>
    match fmtSpec post with
    | some _ => Except.error "TypeError: not enough arguments for format string"
    | none =>
      if c = 'r' then Except.ok ⟨pre ++ ((pyRepr arg).data ++ post)⟩
      else if c = 's' then Except.ok ⟨pre ++ (arg.data ++ post)⟩
      else Except.error "ValueError: unsupported format character"

/-- Python's `fmt % (a1, a2)` with two specifiers. -/
def pyFormat2 (fmt a1 a2 : String) : Except String String :=
  match fmtSpec fmt.data with
  | none => Except.error "TypeError: not all arguments converted during string formatting"
  | some (pre, c, post) =>
    let s1 : Option String :=
      if c = 'r' then some (pyRepr a1) else if c = 's' then some a1 else none
    match s1 with
    | none => Except.error "ValueError: unsupported format character"
    | some s1 =>
      match pyFormat1 ⟨post⟩ a2 with
      | Except.error m => Except.error m
      | Except.ok r => Except.ok ⟨pre ++ (s1.data ++ r.data)⟩

/-- The remote issue/PR handle: immutable title/body/PR-flag plus the
remote label list, which the script's mutations update. -/
structure IssueData where
  title : String
  body : String
  labels : List String
  isPR : Bool
deriving DecidableEq, Repr

/-- One remote API call or one `log` line emitted during a run. -/
inductive Effect where
  | addToLabels (label : String)
  | createComment (text : String)
  | editState (state : String)
  | logMsg (msg : String)
deriving DecidableEq, Repr

deriving instance DecidableEq for Except

/-- The parsed event payload: the `action` field (absent keys give
`none`), and whether the `issue` / `pull_request` keys are present (each
carrying a `number` when present). -/
structure Event where
  action : Option String
  hasIssue : Bool
  hasPR : Bool
deriving DecidableEq, Repr

-- --- constants

/-- The `LABELS_MAP` dict literal, before the `scripts` extension. -/
def LABELS_MAP_literal : List (String × List String) :=
  [ ("linux",
      [ "/proc/disk", "/proc/net", "/proc/smaps", "/proc/vmstat",
        "/sys/class", "alpine", "apt ", "apt-", "archlinux", "centos",
        "debian", "fedora", "gentoo", "kali", "linux", "manylinux", "mint",
        "opensuse", "red hat", "redhat", "RHEL", "rpm", "slackware", "suse",
        "ubuntu", "yum" ]),
    ("windows",
      [ ".bat", "appveyor", "CloseHandle", "DLL", "GetLastError",
        "make.bat", "microsoft", "mingw", "MSVC", "msys", "NtQuery",
        "NTSTATUS", "NtWow64", "OpenProcess", "studio", "TCHAR",
        "TerminateProcess", "Visual Studio", "WCHAR", "win ", "win10",
        "win32", "win7", "windows error", "windows", "WindowsError",
        "WinError" ]),
    ("macos",
      [ "big sur", "capitan", "catalina", "darwin", "dylib", "m1", "mac ",
        "macos", "mojave", "mojave", "os x", "osx", "sierra", "xcode",
        "yosemite" ]),
    ("aix", ["aix"]),
    ("cygwin", ["cygwin"]),
    ("freebsd", ["freebsd"]),
    ("netbsd", ["netbsd"]),
    ("openbsd", ["openbsd"]),
    ("sunos", ["sunos", "solaris"]),
    ("wsl", ["wsl"]),
    ("unix",
      [ "/dev/pts", "/dev/tty", "_psutil_posix", "psposix", "statvfs",
        "waitpid" ]),
    ("pypy", ["pypy"]),
    ("enhancement", ["enhancement"]),
    ("memleak", ["memory leak", "leaks memory", "memleak", "mem leak"]),
    ("api", ["idea", "proposal", "api", "feature"]),
    ("performance", ["performance", "speedup", "speed up", "slow", "fast"]),
    ("wheels", ["wheel", "wheels"]),
    ("scripts",
      [ "example dir", "example script", "examples script", "scripts/" ]),
    ("bug",
      [ "can't execute", "can't install", "cannot execute",
        "cannot install", "crash", "critical", "fail", "install error" ]),
    ("doc",
      [ "dev guide", "devguide", "doc ", "docfix", "document ",
        "documentation", "HISTORY", "index.rst", "pythonhosted", "README",
        "readthedocs", "sphinx" ]),
    ("tests",
      [ " test ", "appveyor", "cirrus", "continuous integration",
        "coverage", "pytest", "tests", "travis", "unit test", "unittest" ]),
    ("priority-high",
      [ "core dumped", "MemoryError", "RuntimeError", "segfault",
        "segmentation fault", "SystemError", "WindowsError", "WinError",
        "ZeroDivisionError" ]) ]

/-- Python's `s.endswith(pat)`. -/
def pyEndsWith (s pat : String) : Bool :=
  pat.data.reverse.isPrefixOf s.data.reverse

/-- `LABELS_MAP[key].extend(extra)`. -/
def extendValue (key : String) (extra : List String)
    (m : List (String × List String)) : List (String × List String) :=
  m.map (fun p => match p.1 == key with
    | true => (p.1, p.2 ++ extra)
    | false => p)

/-- `LABELS_MAP` after the startup statement
`LABELS_MAP['scripts'].extend([x for x in os.listdir(SCRIPTS_DIR) if x.endswith('.py')])`;
`scriptFiles` is the `os.listdir(SCRIPTS_DIR)` result. -/
def LABELS_MAP (scriptFiles : List String) : List (String × List String) :=
  extendValue "scripts" (scriptFiles.filter (fun x => pyEndsWith x ".py"))
    LABELS_MAP_literal

/-- The `OS_LABELS` list literal. -/
def OS_LABELS : List String :=
  [ "aix", "bsd", "cygwin", "freebsd", "linux", "macos", "netbsd",
    "openbsd", "openbsd", "sunos", "unix", "windows", "wsl" ]

/-- The `ILLOGICAL_PAIRS` list literal. -/
def ILLOGICAL_PAIRS : List (String × String) :=
  [ ("bug", "enhancement"),
    ("doc", "tests"),
    ("scripts", "doc"),
    ("scripts", "tests"),
    ("bsd", "freebsd"),
    ("bsd", "openbsd"),
    ("bsd", "netbsd") ]

/-- The canned `REPLY_MISSING_PYTHON_HEADERS` text (the Python source uses
backslash line continuations, so the string holds exactly two newlines). -/
def REPLY_MISSING_PYTHON_HEADERS : String :=
  "It looks like you're missing `Python.h` headers. This usually means you have to install them first, then retry psutil installation.\nPlease read [INSTALL](https://github.com/giampaolo/psutil/blob/master/INSTALL.rst) instructions for your platform. This is an auto-generated response based on the text you submitted. If this was a mistake or you think there's a bug with psutil installation process, please add a comment to reopen this issue.\n"

-- --- github API utils

/-- `is_pr(issue)`: `issue.pull_request is not None`. -/
def is_pr (issue : IssueData) : Bool := issue.isPR

/-- `has_label(issue, label)`. -/
def has_label (issue : IssueData) (label : String) : Bool :=
  issue.labels.contains label

/-- `has_os_label(issue)`. -/
def has_os_label (issue : IssueData) : Bool :=
  OS_LABELS.any (fun l => issue.labels.contains l)

-- --- event utils

/-- `is_event_new_issue()`: `data['action'] == 'opened' and 'issue' in data`,
with a missing `action` key giving `False`. -/
def is_event_new_issue (e : Event) : Bool :=
  (e.action == some "opened") && e.hasIssue

/-- `is_event_new_pr()`. -/
def is_event_new_pr (e : Event) : Bool :=
  (e.action == some "opened") && e.hasPR

-- --- actions

/-- The inner loop of `should_add`: some `(left, right)` pair has
`label == left` and the issue already carries `right`. -/
def illogicalHit (issue : IssueData) (label : String) : Bool :=
  ILLOGICAL_PAIRS.any (fun p => label == p.1 && has_label issue p.2)

/-- `should_add(issue, label)` inside `add_label`.  The illogical-pair
branch calls `log("already has label" % (label))`, whose format string has
no conversion specifier, so that branch raises `TypeError` before logging. -/
def should_add (issue : IssueData) (label : String) :
    List Effect × Except String Bool :=
  if has_label issue label then
    match pyFormat1 "already has label %r" label with
    | Except.error m => ([], Except.error m)
    | Except.ok msg => ([Effect.logMsg msg], Except.ok false)
  else if illogicalHit issue label then
    match pyFormat1 "already has label" label with
    | Except.error m => ([], Except.error m)
    | Except.ok msg => ([Effect.logMsg msg], Except.ok false)
  else ([], Except.ok (!has_label issue label))

/-- `add_label(issue, label)`. -/
def add_label (issue : IssueData) (label : String) :
    List Effect × Except String IssueData :=
  match should_add issue label with
  | (e, Except.error m) => (e, Except.error m)
  | (e, Except.ok sa) =>
    if !sa then
      match pyFormat1 "should not add label %r" label with
      | Except.error m => (e, Except.error m)
      | Except.ok msg => (e ++ [Effect.logMsg msg], Except.ok issue)
    else
      match pyFormat1 "add label %r" label with
      | Except.error m => (e, Except.error m)
      | Except.ok msg =>
        (e ++ [Effect.logMsg msg, Effect.addToLabels label],
         Except.ok { issue with labels := issue.labels ++ [label] })

/-- `_guess_labels_from_text(issue, text)` as the list of yielded pairs;
the global `LABELS_MAP` is passed in as `table`. -/
def guessLabelsFromText (issue : IssueData)
    (table : List (String × List String)) (text : String) :
    List (String × String) :=
  table.flatMap (fun p =>
    (p.2.filter (fun kw => strIn (lowerStr kw) (lowerStr text))).map
      (fun kw => (p.1, kw)))

/-- Run `add_label` over a list of labels, aborting at the first raise. -/
def addLabelsList (issue : IssueData) :
    List String → List Effect × Except String IssueData
  | [] => ([], Except.ok issue)
  | l :: rest =>
    match add_label issue l with
    | (e, Except.error m) => (e, Except.error m)
    | (e, Except.ok i2) =>
      let r := addLabelsList i2 rest
      (e ++ r.1, r.2)

/-- `add_labels_from_text(issue, text)`. -/
def add_labels_from_text (scriptFiles : List String) (issue : IssueData)
    (text : String) : List Effect × Except String IssueData :=
  addLabelsList issue
    ((guessLabelsFromText issue (LABELS_MAP scriptFiles) text).map Prod.fst)

/-- Sequence two effectful steps, aborting at the first raise (a Python
exception stops the run; effects already emitted stay emitted). -/
def pseq (r : List Effect × Except String IssueData)
    (f : IssueData → List Effect × Except String IssueData) :
    List Effect × Except String IssueData :=
  match r with
  | (e, Except.error m) => (e, Except.error m)
  | (e, Except.ok i) =>
    let r2 := f i
    (e ++ r2.1, r2.2)

/-- The `"* OS:"` block of `add_labels_from_new_body`. -/
def osStep (scriptFiles : List String) (issue : IssueData) (text : String) :
    List Effect × Except String IssueData :=
  match reSearchLine "* OS:" text with
  | some line =>
    let r := add_labels_from_text scriptFiles issue line
    ([Effect.logMsg "search for 'OS: ...' line", Effect.logMsg "found"]
       ++ r.1, r.2)
  | none =>
    ([Effect.logMsg "search for 'OS: ...' line", Effect.logMsg "not found"],
     Except.ok issue)

/-- The `"* Bug fix:"` block of `add_labels_from_new_body`. -/
def bugfixStep (issue : IssueData) (text : String) :
    List Effect × Except String IssueData :=
  match reSearchLine "* Bug fix:" text with
  | some line =>
    if is_pr issue && !(has_label issue "bug")
        && !(has_label issue "enhancement") then
      let s := lowerStr line
      let r := if strIn "yes" s then add_label issue "bug"
               else add_label issue "enhancement"
      ([Effect.logMsg "search for 'Bug fix: y/n' line", Effect.logMsg "found"]
         ++ r.1, r.2)
    else
      ([Effect.logMsg "search for 'Bug fix: y/n' line",
        Effect.logMsg "not found"], Except.ok issue)
  | none =>
    ([Effect.logMsg "search for 'Bug fix: y/n' line",
      Effect.logMsg "not found"], Except.ok issue)

/-- One `if <kw> in s: add_label(issue, <kw>)` line of the `"* Type:"`
block, chained onto an earlier partial state. -/
def addIf (cond : Bool) (label : String)
    (st : List Effect × Except String IssueData) :
    List Effect × Except String IssueData :=
  match st with
  | (e, Except.error m) => (e, Except.error m)
  | (e, Except.ok issue) =>
    if cond then
      let r := add_label issue label
      (e ++ r.1, r.2)
    else (e, Except.ok issue)

/-- The `"* Type:"` block of `add_labels_from_new_body`. -/
def typeStep (issue : IssueData) (text : String) :
    List Effect × Except String IssueData :=
  match reSearchLine "* Type:" text with
  | some line =>
    let s := lowerStr line
    let st0 : List Effect × Except String IssueData :=
      ([Effect.logMsg "search for 'Type: ...' line", Effect.logMsg "found"],
       Except.ok issue)
    let st1 := addIf (strIn "doc" s) "doc" st0
    let st2 := addIf (strIn "performance" s) "performance" st1
    let st3 := addIf (strIn "scripts" s) "scripts" st2
    let st4 := addIf (strIn "tests" s) "tests" st3
    let st5 := addIf (strIn "wheels" s) "wheels" st4
    let st6 := addIf (strIn "new-api" s) "new-api" st5
    addIf (strIn "new-platform" s) "new-platform" st6
  | none =>
    ([Effect.logMsg "search for 'Type: ...' line",
      Effect.logMsg "not found"], Except.ok issue)

/-- `add_labels_from_new_body(issue, text)`. -/
def add_labels_from_new_body (scriptFiles : List String) (issue : IssueData)
    (text : String) : List Effect × Except String IssueData :=
  let r := pseq (pseq (osStep scriptFiles issue text)
      (fun i => bugfixStep i text))
    (fun i => typeStep i text)
  (Effect.logMsg "start searching for template lines in new issue/PR body"
     :: r.1, r.2)

-- --- events

/-- The nested `has_text` of `on_new_issue`: case-insensitive membership in
the issue title or body. -/
def has_text (issue : IssueData) (t : String) : Bool :=
  strIn t (lowerStr issue.title) || strIn t (lowerStr issue.body)

/-- `on_new_issue(issue)`: the missing-`Python.h` auto-reply.  The two
phrase signatures go through `has_text` (lowered title and body); the two
compiler-output patterns are matched verbatim against the space-stripped
body only. -/
def on_new_issue (issue : IssueData) : List Effect :=
  Effect.logMsg "searching for missing Python.h" ::
  (if has_text issue "missing python.h"
      || has_text issue "python.h: no such file or directory"
      || strIn "#include<Python.h>\n^~~~" (stripSpaces issue.body)
      || strIn "#include<Python.h>\r\n^~~~" (stripSpaces issue.body) then
    [Effect.logMsg "found",
     Effect.createComment REPLY_MISSING_PYTHON_HEADERS,
     Effect.editState "closed"]
  else [])

/-- `on_new_pr(issue)`: `pass`. -/
def on_new_pr (_ : IssueData) : List Effect := []

/-- `main()`.  `get_issue()` raises `KeyError` when the payload has neither
an `issue` nor a `pull_request` field; the fetched issue itself and its
`repr`/`str` rendering (a library detail interpolated into two log lines)
are inputs. -/
def mainRun (scriptFiles : List String) (issueRepr : String) (event : Event)
    (issue : IssueData) : List Effect × Except String IssueData :=
  if event.hasIssue || event.hasPR then
    let stype := if is_pr issue then "PR" else "issue"
    match pyFormat2 "running issue bot for %s %r" stype issueRepr with
    | Except.error m => ([], Except.error m)
    | Except.ok msg1 =>
      if is_event_new_issue event then
        match pyFormat1 "created new issue %s" issueRepr with
        | Except.error m => ([Effect.logMsg msg1], Except.error m)
        | Except.ok msg2 =>
          let r := pseq (pseq (add_labels_from_text scriptFiles issue issue.title)
              (fun i2 => add_labels_from_new_body scriptFiles i2 i2.body))
            (fun i3 => (on_new_issue i3, Except.ok i3))
          (Effect.logMsg msg1 :: Effect.logMsg msg2 :: r.1, r.2)
      else if is_event_new_pr event then
        match pyFormat1 "created new PR %s" issueRepr with
        | Except.error m => ([Effect.logMsg msg1], Except.error m)
        | Except.ok msg2 =>
          let r := pseq (pseq (add_labels_from_text scriptFiles issue issue.title)
              (fun i2 => add_labels_from_new_body scriptFiles i2 i2.body))
            (fun i3 => (on_new_pr i3, Except.ok i3))
          (Effect.logMsg msg1 :: Effect.logMsg msg2 :: r.1, r.2)
      else ([Effect.logMsg msg1, Effect.logMsg "unhandled event"],
            Except.ok issue)
  else ([], Except.error "KeyError")

/-- Is an effect a remote mutation (label add, comment, state edit)? -/
def isMutation : Effect → Bool
  | Effect.addToLabels _ => true
  | Effect.createComment _ => true
  | Effect.editState _ => true
  | Effect.logMsg _ => false

/-- Is an effect specifically a remote label-add call? -/
def isAddEff : Effect → Bool
  | Effect.addToLabels _ => true
  | _ => false

-- --- basic lemmas about the string model

theorem isPrefixOf_ex : ∀ (a b : List Char),
    a.isPrefixOf b = true ↔ ∃ t, b = a ++ t
  | [], b => by simp [List.isPrefixOf]
  | x :: xs, [] => by simp [List.isPrefixOf]
  | x :: xs, y :: ys => by
    simp only [List.isPrefixOf, Bool.and_eq_true, beq_iff_eq,
      isPrefixOf_ex xs ys, List.cons_append, List.cons.injEq]
    constructor
    · rintro ⟨rfl, t, rfl⟩
      exact ⟨t, rfl, rfl⟩
    · rintro ⟨t, rfl, rfl⟩
      exact ⟨rfl, t, rfl⟩

theorem containsSub_ex : ∀ (a b : List Char),
    containsSub a b = true ↔ ∃ s t, b = s ++ (a ++ t)
  | a, [] => by
    constructor
    · intro h
      have : a = [] := by
        simpa [containsSub, List.isEmpty_iff] using h
      exact ⟨[], [], by simp [this]⟩
    · rintro ⟨s, t, h⟩
      have hs : s = [] ∧ a = [] ∧ t = [] := by
        constructor
        · cases s with
          | nil => rfl
          | cons c cs => simp at h
        · cases s with
          | nil =>
            simp at h
            exact ⟨h.1, h.2⟩
          | cons c cs => simp at h
      simp [containsSub, hs.2.1]
  | a, c :: cs => by
    simp only [containsSub, Bool.or_eq_true, isPrefixOf_ex,
      containsSub_ex a cs]
    constructor
    · rintro (⟨t, h⟩ | ⟨s, t, h⟩)
      · exact ⟨[], t, by simp [h]⟩
      · exact ⟨c :: s, t, by simp [h]⟩
    · rintro ⟨s, t, h⟩
      cases s with
      | nil => exact Or.inl ⟨t, by simpa using h⟩
      | cons s0 ss =>
        right
        simp only [List.cons_append, List.cons.injEq] at h
        exact ⟨ss, t, h.2⟩

theorem containsSub_map (f : Char → Char) (a b : List Char)
    (h : containsSub a b = true) :
    containsSub (a.map f) (b.map f) = true := by
  rcases (containsSub_ex a b).1 h with ⟨s, t, rfl⟩
  exact (containsSub_ex _ _).2 ⟨s.map f, t.map f, by simp⟩

theorem containsSub_trans (a b c : List Char) (h1 : containsSub a b = true)
    (h2 : containsSub b c = true) : containsSub a c = true := by
  rcases (containsSub_ex a b).1 h1 with ⟨s, t, rfl⟩
  rcases (containsSub_ex _ c).1 h2 with ⟨u, v, rfl⟩
  exact (containsSub_ex _ _).2 ⟨u ++ s, t ++ v, by simp⟩

theorem strIn_lower_mono (sub s : String) (h : strIn sub s = true) :
    strIn (lowerStr sub) (lowerStr s) = true :=
  containsSub_map Char.toLower sub.data s.data h

theorem strIn_trans (a b c : String) (h1 : strIn a b = true)
    (h2 : strIn b c = true) : strIn a c = true :=
  containsSub_trans a.data b.data c.data h1 h2

-- --- lemmas about the %-formatting model at the script's format strings

theorem pyFormat1_already (l : String) :
    pyFormat1 "already has label %r" l =
      Except.ok ⟨"already has label ".data ++ ((pyRepr l).data ++ [])⟩ := rfl

theorem pyFormat1_should_not (l : String) :
    pyFormat1 "should not add label %r" l =
      Except.ok ⟨"should not add label ".data ++ ((pyRepr l).data ++ [])⟩ := rfl

theorem pyFormat1_add (l : String) :
    pyFormat1 "add label %r" l =
      Except.ok ⟨"add label ".data ++ ((pyRepr l).data ++ [])⟩ := rfl

theorem pyFormat1_bad (l : String) :
    pyFormat1 "already has label" l =
      Except.error
        "TypeError: not all arguments converted during string formatting" :=
  rfl

-- --- lemmas about the add-label policy

theorem illogical_bug (issue : IssueData) :
    illogicalHit issue "bug" = has_label issue "enhancement" := by
  simp [illogicalHit, ILLOGICAL_PAIRS]

theorem illogical_enh (issue : IssueData) :
    illogicalHit issue "enhancement" = false := by
  simp [illogicalHit, ILLOGICAL_PAIRS]

theorem has_label_append_self (issue : IssueData) (l : String) :
    has_label { issue with labels := issue.labels ++ [l] } l = true := by
  simp [has_label]

theorem add_label_skip (issue : IssueData) (label : String)
    (h : has_label issue label = true) :
    add_label issue label =
      ([Effect.logMsg ⟨"already has label ".data ++ ((pyRepr label).data ++ [])⟩,
        Effect.logMsg ⟨"should not add label ".data ++ ((pyRepr label).data ++ [])⟩],
       Except.ok issue) := by
  simp [add_label, should_add, h, pyFormat1_already, pyFormat1_should_not]

theorem add_label_go (issue : IssueData) (label : String)
    (h1 : has_label issue label = false)
    (h2 : illogicalHit issue label = false) :
    add_label issue label =
      ([Effect.logMsg ⟨"add label ".data ++ ((pyRepr label).data ++ [])⟩,
        Effect.addToLabels label],
       Except.ok { issue with labels := issue.labels ++ [label] }) := by
  simp [add_label, should_add, h1, h2, pyFormat1_add]

theorem add_label_illogical (issue : IssueData) (label : String)
    (h1 : has_label issue label = false)
    (h2 : illogicalHit issue label = true) :
    add_label issue label =
      ([], Except.error
        "TypeError: not all arguments converted during string formatting") := by
  simp [add_label, should_add, h1, h2, pyFormat1_bad]

-- --- claims

/-- Claim C1: for every input text, every label in the keyword table, and
every keyword in that label's keyword list, the classifier emits the pair
(label, keyword) iff the keyword occurs as a case-insensitive substring of
the text (every matching pair is emitted, with no deduplication at this
layer). -/
theorem claim_C1_classifier_pairs (issue : IssueData)
    (table : List (String × List String)) (text label kw : String)
    (kws : List String) (h1 : (label, kws) ∈ table) (h2 : kw ∈ kws) :
    ((label, kw) ∈ guessLabelsFromText issue table text ↔
      strIn (lowerStr kw) (lowerStr text) = true) := by
  constructor
  · intro hmem
    rcases List.mem_flatMap.1 hmem with ⟨p, _, hin⟩
    rcases List.mem_map.1 hin with ⟨kw2, hkw2, heq⟩
    rcases List.mem_filter.1 hkw2 with ⟨_, hcond⟩
    have h2' : kw2 = kw := congrArg Prod.snd heq
    rw [h2'] at hcond
    exact hcond
  · intro hin
    exact List.mem_flatMap.2
      ⟨(label, kws), h1, List.mem_map.2 ⟨kw, List.mem_filter.2 ⟨h2, hin⟩, rfl⟩⟩

theorem claim_C1_witness :
    ("linux", "linux") ∈
      guessLabelsFromText ⟨"t", "b", [], false⟩ [("linux", ["linux"])]
        "Linux box" :=
  (claim_C1_classifier_pairs ⟨"t", "b", [], false⟩ [("linux", ["linux"])]
    "Linux box" "linux" "linux" ["linux"] (by decide) (by decide)).mpr
    (by decide)

/-- Claim C2: for a new issue titled "build fails" whose body contains the
literal text "fatal error: Python.h: No such file or directory", the
new-issue handler posts exactly one comment, the fixed canned
missing-Python.h reply, then closes the issue, and does nothing further on
that path. -/
theorem claim_C2_missing_header_reply (body : String) (labels : List String)
    (pr : Bool)
    (h : strIn "fatal error: Python.h: No such file or directory" body = true) :
    on_new_issue ⟨"build fails", body, labels, pr⟩ =
      [Effect.logMsg "searching for missing Python.h",
       Effect.logMsg "found",
       Effect.createComment REPLY_MISSING_PYTHON_HEADERS,
       Effect.editState "closed"] := by
  have hl : strIn
      (lowerStr "fatal error: Python.h: No such file or directory")
      (lowerStr body) = true := strIn_lower_mono _ _ h
  have h2 : strIn "python.h: no such file or directory" (lowerStr body) = true :=
    strIn_trans _ _ _ (by decide) hl
  simp [on_new_issue, has_text, h2]

theorem claim_C2_witness :
    on_new_issue
      ⟨"build fails", "fatal error: Python.h: No such file or directory",
       [], false⟩ =
      [Effect.logMsg "searching for missing Python.h",
       Effect.logMsg "found",
       Effect.createComment REPLY_MISSING_PYTHON_HEADERS,
       Effect.editState "closed"] :=
  claim_C2_missing_header_reply
    "fatal error: Python.h: No such file or directory" [] false (by decide)

/-- Claim C3 (code bug): on an issue already labeled "freebsd", applying
the add-label policy for "bsd" is supposed to skip with a log entry and no
error, but the illogical-pair branch calls
`log("already has label" % (label))` whose format string has no conversion
specifier, so the call raises `TypeError` (no remote mutation happens
either way: the effect trace is empty). -/
theorem claim_C3_crash_eval :
    add_label ⟨"t", "b", ["freebsd"], false⟩ "bsd" =
      ([], Except.error
        "TypeError: not all arguments converted during string formatting") := by
  decide

/-- Claim C10: classification is a function of the text and table alone:
the classifier ignores its issue argument, so any two issue handles (any
titles, bodies, labels, PR flags) yield the identical emitted sequence. -/
theorem claim_C10_ignores_issue (i1 i2 : IssueData)
    (table : List (String × List String)) (text : String) :
    guessLabelsFromText i1 table text = guessLabelsFromText i2 table text :=
  rfl

/-- Claim C4 counterexample: the compiler-output pattern is not matched
case-insensitively.  This issue's body contains the include signature in
upper case (after whitespace stripping, witnessed by the first conjunct on
the lowered strings), yet the handler detects nothing: its only effect is
the initial log line. -/
theorem claim_C4_counterexample :
    strIn (lowerStr "#include<Python.h>\n^~~~")
        (lowerStr (stripSpaces "#INCLUDE <PYTHON.H>\n^~~~")) = true ∧
      on_new_issue ⟨"build fails", "#INCLUDE <PYTHON.H>\n^~~~", [], false⟩ =
        [Effect.logMsg "searching for missing Python.h"] := by
  decide

/-- Claim C4 amended: the two phrase signatures ("missing python.h" and
"python.h: no such file or directory") are checked case-insensitively
against both the issue title and the issue body — any issue whose lowered
title or lowered body contains either phrase is detected and answered with
the canned reply plus a close; the compiler-output pattern (with
whitespace stripped) is instead matched case-sensitively and only against
the body. -/
theorem claim_C4_amended (title body : String) (labels : List String)
    (pr : Bool) (sig : String)
    (hsig : sig = "missing python.h" ∨
      sig = "python.h: no such file or directory")
    (h : strIn sig (lowerStr title) = true ∨ strIn sig (lowerStr body) = true) :
    on_new_issue ⟨title, body, labels, pr⟩ =
      [Effect.logMsg "searching for missing Python.h",
       Effect.logMsg "found",
       Effect.createComment REPLY_MISSING_PYTHON_HEADERS,
       Effect.editState "closed"] := by
  rcases hsig with rfl | rfl <;> rcases h with h | h <;>
    simp [on_new_issue, has_text, h]

theorem claim_C4_witness :
    on_new_issue ⟨"MISSING Python.H", "x", [], false⟩ =
      [Effect.logMsg "searching for missing Python.h",
       Effect.logMsg "found",
       Effect.createComment REPLY_MISSING_PYTHON_HEADERS,
       Effect.editState "closed"] :=
  claim_C4_amended "MISSING Python.H" "x" [] false "missing python.h"
    (Or.inl rfl) (Or.inl (by decide))

/-- Claim C5 counterexample: the claim quantifies over bodies *containing*
the line "* Bug fix: yes\n", but the code acts on the *first* regex match.
This PR body contains that line (first conjunct), yet the handler adds
"enhancement", not "bug", because the first matching line is
"* Bug fix: no\n". -/
theorem claim_C5_counterexample :
    strIn "* Bug fix: yes\n" "* Bug fix: no\n* Bug fix: yes\n" = true ∧
      bugfixStep ⟨"t", "* Bug fix: no\n* Bug fix: yes\n", [], true⟩
          "* Bug fix: no\n* Bug fix: yes\n" =
        ([Effect.logMsg "search for 'Bug fix: y/n' line",
          Effect.logMsg "found",
          Effect.logMsg "add label 'enhancement'",
          Effect.addToLabels "enhancement"],
         Except.ok ⟨"t", "* Bug fix: no\n* Bug fix: yes\n",
           ["enhancement"], true⟩) := by
  decide

/-- Claim C5 amended: the Bug-fix extraction acts on the *first*
"* Bug fix:" line match in the body.  On a pull request carrying neither
"bug" nor "enhancement": if that line (lower-cased) contains "yes" the
label "bug" is added, otherwise "enhancement" is added.  When the pull
request already carries "bug" or "enhancement", or the issue is not a pull
request, the step performs no mutation (log entries only). -/
theorem claim_C5_amended (issue : IssueData) (text line : String) :
    (is_pr issue = true → has_label issue "bug" = false →
      has_label issue "enhancement" = false →
      reSearchLine "* Bug fix:" text = some line →
      strIn "yes" (lowerStr line) = true →
      bugfixStep issue text =
        ([Effect.logMsg "search for 'Bug fix: y/n' line",
          Effect.logMsg "found",
          Effect.logMsg ⟨"add label ".data ++ ((pyRepr "bug").data ++ [])⟩,
          Effect.addToLabels "bug"],
         Except.ok { issue with labels := issue.labels ++ ["bug"] })) ∧
    (is_pr issue = true → has_label issue "bug" = false →
      has_label issue "enhancement" = false →
      reSearchLine "* Bug fix:" text = some line →
      strIn "yes" (lowerStr line) = false →
      bugfixStep issue text =
        ([Effect.logMsg "search for 'Bug fix: y/n' line",
          Effect.logMsg "found",
          Effect.logMsg
            ⟨"add label ".data ++ ((pyRepr "enhancement").data ++ [])⟩,
          Effect.addToLabels "enhancement"],
         Except.ok { issue with labels := issue.labels ++ ["enhancement"] })) ∧
    (has_label issue "bug" = true →
      bugfixStep issue text =
        ([Effect.logMsg "search for 'Bug fix: y/n' line",
          Effect.logMsg "not found"], Except.ok issue)) ∧
    (has_label issue "enhancement" = true →
      bugfixStep issue text =
        ([Effect.logMsg "search for 'Bug fix: y/n' line",
          Effect.logMsg "not found"], Except.ok issue)) ∧
    (is_pr issue = false →
      bugfixStep issue text =
        ([Effect.logMsg "search for 'Bug fix: y/n' line",
          Effect.logMsg "not found"], Except.ok issue)) := by
  refine ⟨?_, ?_, ?_, ?_, ?_⟩
  · intro hpr hb he hr hyes
    have hbug : illogicalHit issue "bug" = false := by
      rw [illogical_bug]; exact he
    have hadd := add_label_go issue "bug" hb hbug
    simp [bugfixStep, hr, hpr, hb, he, hyes, hadd]
  · intro hpr hb he hr hyes
    have henh : illogicalHit issue "enhancement" = false := illogical_enh issue
    have hadd := add_label_go issue "enhancement" he henh
    simp [bugfixStep, hr, hpr, hb, he, hyes, hadd]
  · intro hb
    cases hr : reSearchLine "* Bug fix:" text with
    | none => simp [bugfixStep, hr]
    | some l => simp [bugfixStep, hr, hb]
  · intro he
    cases hr : reSearchLine "* Bug fix:" text with
    | none => simp [bugfixStep, hr]
    | some l => simp [bugfixStep, hr, he]
  · intro hpr
    cases hr : reSearchLine "* Bug fix:" text with
    | none => simp [bugfixStep, hr]
    | some l => simp [bugfixStep, hr, hpr]

theorem claim_C5_witness :
    bugfixStep ⟨"t", "* Bug fix: yes\n", [], true⟩ "* Bug fix: yes\n" =
      ([Effect.logMsg "search for 'Bug fix: y/n' line",
        Effect.logMsg "found",
        Effect.logMsg ⟨"add label ".data ++ ((pyRepr "bug").data ++ [])⟩,
        Effect.addToLabels "bug"],
       Except.ok ⟨"t", "* Bug fix: yes\n", ["bug"], true⟩) :=
  (claim_C5_amended ⟨"t", "* Bug fix: yes\n", [], true⟩ "* Bug fix: yes\n"
    "* Bug fix: yes\n").1 (by decide) (by decide) (by decide) (by decide)
    (by decide)

/-- Claim C6: whenever the first invocation of the add-label policy
performs the remote add, running the policy again for the same label on
the resulting issue is a no-op: the second run only logs (the
already-has-label check fires), the issue is unchanged, and the combined
trace holds exactly one remote add call. -/
theorem claim_C6_idempotent (issue : IssueData) (label : String)
    (e1 : List Effect) (i1 : IssueData)
    (h : add_label issue label = (e1, Except.ok i1))
    (hadd : Effect.addToLabels label ∈ e1) :
    ∃ m1 m2, add_label i1 label =
        ([Effect.logMsg m1, Effect.logMsg m2], Except.ok i1) ∧
      (e1 ++ [Effect.logMsg m1, Effect.logMsg m2]).countP isAddEff = 1 := by
  cases hhas : has_label issue label with
  | true =>
    rw [add_label_skip issue label hhas] at h
    have he1 : e1 =
        [Effect.logMsg ⟨"already has label ".data ++ ((pyRepr label).data ++ [])⟩,
         Effect.logMsg ⟨"should not add label ".data ++ ((pyRepr label).data ++ [])⟩] :=
      (congrArg Prod.fst h).symm
    rw [he1] at hadd
    simp at hadd
  | false =>
    cases hill : illogicalHit issue label with
    | true =>
      rw [add_label_illogical issue label hhas hill] at h
      have := congrArg Prod.snd h
      simp at this
    | false =>
      rw [add_label_go issue label hhas hill] at h
      have he1 : e1 =
          [Effect.logMsg ⟨"add label ".data ++ ((pyRepr label).data ++ [])⟩,
           Effect.addToLabels label] := (congrArg Prod.fst h).symm
      have hi1 : i1 = { issue with labels := issue.labels ++ [label] } := by
        have := congrArg Prod.snd h
        simpa using this.symm
      have hhas2 : has_label i1 label = true := by
        rw [hi1]; exact has_label_append_self issue label
      refine ⟨_, _, add_label_skip i1 label hhas2, ?_⟩
      rw [he1]
      simp [isAddEff, List.countP_cons]

/-- Claim C7 (code bug): on a body whose Type line lists several types,
the extractor is supposed to run the add-label policy independently for
each listed type (skipping illogical pairs).  Instead, once "doc" is
added, the policy invocation for "scripts" hits the illogical pair
("scripts", "doc") and raises `TypeError` from the malformed log call
`log("already has label" % (label))`; the policy for "tests" never runs. -/
theorem claim_C7_crash_eval :
    typeStep ⟨"t", "* Type: doc scripts tests\n", [], false⟩
        "* Type: doc scripts tests\n" =
      ([Effect.logMsg "search for 'Type: ...' line",
        Effect.logMsg "found",
        Effect.logMsg "add label 'doc'",
        Effect.addToLabels "doc"],
       Except.error
         "TypeError: not all arguments converted during string formatting") := by
  decide

/-- Claim C8 counterexample: the claim quantifies over every payload with
a non-"opened" action, but a payload carrying neither an `issue` nor a
`pull_request` field makes `get_issue()` raise `KeyError` before any
logging: the run errors out with no effects at all, in particular without
the unhandled-event log entry. -/
theorem claim_C8_counterexample :
    mainRun [] "x" ⟨some "edited", false, false⟩ ⟨"t", "b", [], false⟩ =
      ([], Except.error "KeyError") := by
  decide

/-- Claim C8 amended: for every event payload that carries an issue or
pull-request reference and whose action is not "opened", the main driver
performs no remote mutation: it emits exactly the startup log line and
the "unhandled event" log line and stops. -/
theorem claim_C8_amended (scriptFiles : List String) (issueRepr : String)
    (event : Event) (issue : IssueData)
    (h1 : (event.hasIssue || event.hasPR) = true)
    (h2 : event.action ≠ some "opened") :
    ∃ m, mainRun scriptFiles issueRepr event issue =
      ([Effect.logMsg m, Effect.logMsg "unhandled event"],
       Except.ok issue) := by
  have hb : (event.action == some "opened") = false :=
    beq_eq_false_iff_ne.mpr h2
  obtain ⟨m, hm⟩ : ∃ m,
      pyFormat2 "running issue bot for %s %r"
        (if is_pr issue then "PR" else "issue") issueRepr = Except.ok m :=
    ⟨_, rfl⟩
  exact ⟨m, by
    simp [mainRun, h1, hm, is_event_new_issue, is_event_new_pr, hb]⟩

theorem claim_C8_witness :
    ∃ m, mainRun [] "x" ⟨some "edited", true, false⟩ ⟨"t", "b", [], false⟩ =
      ([Effect.logMsg m, Effect.logMsg "unhandled event"],
       Except.ok ⟨"t", "b", [], false⟩) :=
  claim_C8_amended [] "x" ⟨some "edited", true, false⟩ ⟨"t", "b", [], false⟩
    (by decide) (by decide)

/-- Claim C9 counterexample: the keyword table is not independent of the
runtime filesystem: the "scripts" keyword list is extended at startup with
the `.py` entries of the scripts directory listing, so two different
listings yield different tables. -/
theorem claim_C9_counterexample :
    (LABELS_MAP ["diskusage.py"]).lookup "scripts" ≠
      (LABELS_MAP []).lookup "scripts" := by
  decide

theorem lookup_extendValue (key : String) (extra : List String)
    (m : List (String × List String)) (l : String) (h : l ≠ key) :
    (extendValue key extra m).lookup l = m.lookup l := by
  induction m with
  | nil => rfl
  | cons p rest ih =>
    obtain ⟨k, v⟩ := p
    simp only [extendValue, List.map_cons] at ih ⊢
    cases hk : (k == key) with
    | true =>
      have hkk : k = key := eq_of_beq hk
      have hl : (l == k) = false := beq_eq_false_iff_ne.mpr (hkk ▸ h)
      simp [List.lookup, hk, hl, ih]
    | false =>
      cases hl : (l == k) with
      | true => simp [List.lookup, hk, hl]
      | false => simp [List.lookup, hk, hl, ih]

/-- Claim C9 amended: every label's keyword list except that of "scripts"
is determined entirely by the program text, independent of the scripts
directory listing; the "scripts" list is the literal one extended once at
startup with the listing's `.py` entries, and the table is never changed
afterward. -/
theorem claim_C9_amended (fs1 fs2 : List String) (l : String)
    (h : l ≠ "scripts") :
    (LABELS_MAP fs1).lookup l = (LABELS_MAP fs2).lookup l := by
  unfold LABELS_MAP
  rw [lookup_extendValue _ _ _ _ h, lookup_extendValue _ _ _ _ h]

theorem claim_C9_witness :
    (LABELS_MAP []).lookup "linux" = (LABELS_MAP ["a.py"]).lookup "linux" :=
  claim_C9_amended [] ["a.py"] "linux" (by decide)

theorem claim_C6_witness :
    ∃ m1 m2, add_label ⟨"t", "b", ["x"], false⟩ "x" =
        ([Effect.logMsg m1, Effect.logMsg m2],
         Except.ok ⟨"t", "b", ["x"], false⟩) ∧
      ([Effect.logMsg "add label 'x'", Effect.addToLabels "x"] ++
        [Effect.logMsg m1, Effect.logMsg m2]).countP isAddEff = 1 :=
  claim_C6_idempotent ⟨"t", "b", [], false⟩ "x"
    [Effect.logMsg "add label 'x'", Effect.addToLabels "x"]
    ⟨"t", "b", ["x"], false⟩ (by decide) (by decide)
